import Mathlib

/-!
Verification of the format-resolution and acquisition subsystem of the
YouTube→Telegram relay bot (`src/main.py`), as a shallow embedding:
configuration values, the strategy catalog, the metadata prober
(`get_video_info`), the download step (`download_video`), the caption
builder (`post_to_telegram`), the search boundary (`search_youtube`) and
the orchestration loop (`main`) are translated into executable Lean
definitions, and the specified properties are settled against them.
Network and filesystem effects are modelled by explicit environment
parameters (per-strategy extraction outcomes, per-candidate pipeline
outcomes, the list of files present after a download).
-/

namespace YoutubeNews

/-! ### Configuration defaults (section 1 of `main.py`) -/

/-- Default of env var `MAX_VIDEOS` (`main.py` line 28). -/
def MAX_VIDEOS : Nat := 5

/-- Default of env var `MAX_DURATION` (`main.py` line 29). -/
def MAX_DURATION : Nat := 300

/-- Default of env var `MIN_DURATION` (`main.py` line 30). -/
def MIN_DURATION : Nat := 30

/-! ### Metadata prober (`get_video_info`, `main.py` lines 196-317) -/

/-- The raw metadata dictionary a yt-dlp extraction returns.  Each field is
optional, mirroring `info.get(...)` lookups in the source. -/
structure RawInfo where
  title : Option String
  duration : Option Nat
  uploader : Option String
  view_count : Option Nat
  description : Option String
deriving Repr, DecidableEq

/-- The options each probe strategy passes to `YoutubeDL`: whether the cookie
file is spliced in (`**cookie_opts`), the `player_client` hint and the
`skip` list of `extractor_args`, plus the `quiet` flag. -/
structure StrategyOpts where
  quiet : Bool
  usesCookies : Bool
  player_client : List String
  skip : List String
deriving Repr, DecidableEq

/-- The strategy catalog of `get_video_info` (`main.py` lines 203-267), in
source order.  `c` is whether a cookie file is available
(`get_cookie_opts` returns `{"cookiefile": path}` exactly when the path is
non-None, so `**cookie_opts` contributes the cookie file iff `c`). -/
def probeStrategies (c : Bool) : List (String × StrategyOpts) :=
  [("tv_embedded",    ⟨true, false, ["tv_embedded"], ["dash", "hls"]⟩),
   ("android_cookie", ⟨true, c,     ["android"],     ["dash", "hls"]⟩),
   ("ios_cookie",     ⟨true, c,     ["ios"],         ["dash"]⟩),
   ("web_cookie",     ⟨true, c,     ["web"],         []⟩),
   ("mweb_cookie",    ⟨true, c,     ["mweb"],        ["dash"]⟩)]

/-- The metadata record built on probe success (`main.py` lines 292-301),
including the `successful_strategy` field remembered for the download. -/
structure VideoInfo where
  id : String
  url : String
  title : String
  duration : Nat
  uploader : String
  view_count : Nat
  description : String
  successful_strategy : String
deriving Repr, DecidableEq

/-- Building the returned metadata dictionary from a raw extraction
(`main.py` lines 292-301): defaults applied via `info.get`, the
description truncated to 500 characters. -/
def mkVideoInfo (video_id name : String) (info : RawInfo) : VideoInfo :=
  { id := video_id
    url := "https://www.youtube.com/watch?v=" ++ video_id
    title := info.title.getD "No Title"
    duration := info.duration.getD 0
    uploader := info.uploader.getD "Unknown"
    view_count := info.view_count.getD 0
    description := (info.description.getD "").take 500
    successful_strategy := name }

/-- One extraction attempt's outcome: a raised exception (`Except.error`
with its message), or `extract_info` returning `None` (`Except.ok none`),
or a metadata dictionary. -/
abbrev ExtractOutcome := Except String (Option RawInfo)

/-- An outcome that makes the probe move on to the next strategy: a raised
error, or an empty (`None`) metadata response (`main.py` lines 276-278 and
303-314). -/
def skips : ExtractOutcome → Bool
  | .error _ => true
  | .ok none => true
  | .ok (some _) => false

/-- The strategy loop of `get_video_info` (`main.py` lines 269-317): try
each strategy's extraction in order; on a raised error or an empty
response continue; on metadata with out-of-range duration
(`duration < MIN_DURATION or duration > MAX_DURATION`) return `None` at
once; otherwise return the metadata record naming the strategy.  `env`
gives each strategy's extraction outcome, keyed by its (unique) name. -/
def runStrategies (minDur maxDur : Nat) (video_id : String)
    (env : String → ExtractOutcome) :
    List (String × StrategyOpts) → Option VideoInfo
  | [] => none
  | (name, _) :: rest =>
    match env name with
    | .error _ => runStrategies minDur maxDur video_id env rest
    | .ok none => runStrategies minDur maxDur video_id env rest
    | .ok (some info) =>
      if info.duration.getD 0 < minDur ∨ maxDur < info.duration.getD 0 then none
      else some (mkVideoInfo video_id name info)

/-- The function `get_video_info` (`main.py` lines 196-317): the strategy loop run over
the fixed catalog. -/
def get_video_info (minDur maxDur : Nat) (video_id : String) (c : Bool)
    (env : String → ExtractOutcome) : Option VideoInfo :=
  runStrategies minDur maxDur video_id env (probeStrategies c)

/-! ### Download step (`download_video`, `main.py` lines 323-395) -/

/-- The four format alternatives of the download's format selector
(`main.py` lines 334-340), in preference order; the source writes them as
one adjacent-string-literal expression joined by `/`. -/
def format_alternatives : List String :=
  ["bestvideo[ext=mp4][height<=720][filesize<45M]+bestaudio[ext=m4a]",
   "best[ext=mp4][height<=720][filesize<45M]",
   "best[height<=480]",
   "best"]

/-- The `format` string handed to yt-dlp by `download_video`
(`main.py` lines 334-340). -/
def format_selector : String := String.intercalate "/" format_alternatives

/-- Modelled from the spec: a format alternative that merges a video-only
stream with an audio-only stream (yt-dlp `+` syntax) requests a composite
variant, i.e. one that needs an external muxing step to become a single
playable file. -/
def requestsComposite (alt : String) : Bool := alt.data.contains '+'

/-- Modelled from the spec: an exact variant identifier is an opaque
format token with no selection syntax — no fallback alternation (`/`), no
stream merge (`+`), no condition filter (`[`); such a token cannot
re-resolve to a different variant at download time. -/
def isExactVariantId (s : String) : Bool :=
  !(s.data.contains '/' || s.data.contains '+' || s.data.contains '[')

/-- The `strategy_extra` table of `download_video` (`main.py` lines
342-364): per recorded strategy name, whether cookies are spliced in, the
`player_client` hint, and the `skip` list (none of the download entries
set `skip` except `tv_embedded`). -/
def strategy_extra (c : Bool) : List (String × (Bool × List String × List String)) :=
  [("tv_embedded",    (false, ["tv_embedded"], ["dash", "hls"])),
   ("android_cookie", (c,     ["android"],     [])),
   ("ios_cookie",     (c,     ["ios"],         [])),
   ("web_cookie",     (c,     ["web"],         [])),
   ("mweb_cookie",    (c,     ["mweb"],        []))]

/-- The `ydl_opts` dictionary built by `download_video` (`main.py` lines
368-379).  `player_client = none` models the default branch
`strategy_extra.get(name, {**cookie_opts})`, which sets no
`extractor_args` at all. -/
structure DlOpts where
  format : String
  outtmpl : String
  quiet : Bool
  no_warnings : Bool
  merge_output_format : String
  postprocessors : List (String × String)
  usesCookies : Bool
  player_client : Option (List String)
  skip : List String
deriving Repr, DecidableEq

/-- The option construction of `download_video` (`main.py` lines 327-379):
look the recorded strategy up in `strategy_extra` (falling back to plain
cookie options), and assemble the full yt-dlp options with the fixed
format selector, output template, mp4 merge format and ffmpeg convertor
post-processor. -/
def dl_ydl_opts (strategy_name : String) (c : Bool) (output_dir : String) : DlOpts :=
  match (strategy_extra c).lookup strategy_name with
  | some extra =>
    { format := format_selector
      outtmpl := output_dir ++ "/%(id)s.%(ext)s"
      quiet := false
      no_warnings := false
      merge_output_format := "mp4"
      postprocessors := [("FFmpegVideoConvertor", "mp4")]
      usesCookies := extra.1
      player_client := some extra.2.1
      skip := extra.2.2 }
  | none =>
    { format := format_selector
      outtmpl := output_dir ++ "/%(id)s.%(ext)s"
      quiet := false
      no_warnings := false
      merge_output_format := "mp4"
      postprocessors := [("FFmpegVideoConvertor", "mp4")]
      usesCookies := c
      player_client := none
      skip := [] }

/-- A file present in the download directory after the transfer: its name,
extension and size in bytes. -/
structure FoundFile where
  name : String
  ext : String
  size : Nat
deriving Repr, DecidableEq

/-- The post-transfer scan of `download_video` (`main.py` lines 386-390):
for each extension `mp4, mkv, webm, m4v` in that order, return the first
file in the directory with that extension; the file's size is only
logged, never checked. -/
def findDownloaded (files : List FoundFile) : Option FoundFile :=
  (["mp4", "mkv", "webm", "m4v"].filterMap
    (fun e => files.find? (fun f => f.ext == e))).head?

/-- The overall result of `download_video` (`main.py` lines 381-395): on a
raised transfer exception return `None`; otherwise return the first file
the scan finds (or `None` when the scan finds nothing). -/
def download_video_result (dlOutcome : Except String Unit)
    (files : List FoundFile) : Option FoundFile :=
  match dlOutcome with
  | .error _ => none
  | .ok _ => findDownloaded files

/-- Size replacement on a found file, used to state that the download
result never depends on file sizes. -/
def setSize (g : String → Nat) (f : FoundFile) : FoundFile :=
  { f with size := g f.name }

/-! ### Caption building (`post_to_telegram`, `main.py` lines 401-433) -/

/-- Python's `{secs:02d}` formatting (seconds are below 60, so two digits
always suffice). -/
def pad2 (n : Nat) : String :=
  if n < 10 then "0" ++ toString n else toString n

/-- Helper for `commaFormat`: walk the reversed digit list, inserting a
comma before each digit whose index is a positive multiple of three. -/
def commaRev : List Char → Nat → List Char
  | [], _ => []
  | ch :: rest, i =>
    (if i % 3 = 0 ∧ i ≠ 0 then [',', ch] else [ch]) ++ commaRev rest (i + 1)

/-- Python's `{:,}` thousands-separator formatting of a natural number. -/
def commaFormat (n : Nat) : String :=
  String.mk ((commaRev (toString n).data.reverse 0).reverse)

/-- The caption assembled by `post_to_telegram` (`main.py` lines 405-412):
title, uploader, `mins:secs` duration, comma-grouped view count and the
source URL, joined with the source's literal emoji and markdown text. -/
def buildCaption (title uploader : String) (duration view_count : Nat)
    (url : String) : String :=
  "🎬 *" ++ title ++ "*\n\n" ++
  "👤 " ++ uploader ++ "\n" ++
  "⏱️ " ++ toString (duration / 60) ++ ":" ++ pad2 (duration % 60) ++ "\n" ++
  "👁️ " ++ commaFormat view_count ++ " views\n\n" ++
  "🔗 [Watch on YouTube](" ++ url ++ ")"

/-- The caption `post_to_telegram` sends for a probed video. -/
def post_caption (vi : VideoInfo) : String :=
  buildCaption vi.title vi.uploader vi.duration vi.view_count vi.url

/-- Modelled from the spec: the publish sink's documented maximum caption
length (Telegram's media-caption limit, 1024 characters); the spec's
truncation claim refers to this limit, which `main.py` nowhere mentions. -/
def TELEGRAM_CAPTION_LIMIT : Nat := 1024

/-! ### Search boundary (`search_youtube`, `main.py` lines 157-190) -/

/-- One entry of the provider's search response; the `id` key may be
missing (or `None`). -/
structure SearchEntry where
  id : Option String
deriving Repr, DecidableEq

/-- The provider's search response dictionary: the `"entries"` key may be
absent; entries themselves may be `None`. -/
structure SearchInfo where
  entries : Option (List (Option SearchEntry))
deriving Repr, DecidableEq

/-- The `ydl_opts` of `search_youtube` (`main.py` lines 163-174). -/
structure SearchOpts where
  quiet : Bool
  no_warnings : Bool
  extract_flat : Bool
  playlistend : Nat
  usesCookies : Bool
  player_client : List String
deriving Repr, DecidableEq

/-- The option construction of `search_youtube` (`main.py` lines 163-174): the
provider is asked for at most `max_results` entries via `playlistend`. -/
def search_ydl_opts (c : Bool) (max_results : Nat) : SearchOpts :=
  { quiet := true
    no_warnings := false
    extract_flat := true
    playlistend := max_results
    usesCookies := c
    player_client := ["tv_embedded"] }

/-- The search expression (`main.py` line 176), which also caps the result
count at `max_results` provider-side. -/
def search_url (query : String) (max_results : Nat) : String :=
  "ytsearch" ++ toString max_results ++ ":" ++ query

/-- The id a search entry contributes (`main.py` lines 183-185): the entry
must be non-`None` and its `id` truthy, i.e. present and non-empty. -/
def entryId (e : Option SearchEntry) : Option String :=
  match e with
  | none => none
  | some en =>
    match en.id with
    | none => none
    | some i => if i = "" then none else some i

/-- The result of `search_youtube` (`main.py` lines 177-190): `[]` when the
extraction raised, returned `None`, or had no `"entries"` key; otherwise
the truthy ids of the entries in provider order. -/
def search_youtube (resp : Except String (Option SearchInfo)) : List String :=
  match resp with
  | .error _ => []
  | .ok none => []
  | .ok (some info) =>
    match info.entries with
    | none => []
    | some es => es.filterMap entryId

/-- All ids the provider's entries carry (dropping `None` entries and
missing ids), in provider order — the pool `search_youtube` draws from. -/
def allEntryIds (resp : Except String (Option SearchInfo)) : List String :=
  match resp with
  | .error _ => []
  | .ok none => []
  | .ok (some info) =>
    match info.entries with
    | none => []
    | some es => es.filterMap (fun e => e.bind SearchEntry.id)

/-- The number of entries the provider returned. -/
def entryCount (resp : Except String (Option SearchInfo)) : Nat :=
  match resp with
  | .error _ => 0
  | .ok none => 0
  | .ok (some info) =>
    match info.entries with
    | none => 0
    | some es => es.length

/-! ### Orchestration loop (`main`, `main.py` lines 463-552) -/

/-- The per-run counters (`main.py` lines 504-509). -/
structure Stats where
  posted : Nat
  no_info : Nat
  dl_fail : Nat
  tg_fail : Nat
deriving Repr, DecidableEq

/-- How far one candidate gets through the pipeline, as decided by the
external world: probe fails, download fails, publish fails, or posted. -/
inductive Outcome
  | noInfo
  | dlFail
  | tgFail
  | posted
deriving Repr, DecidableEq

/-- True exactly for a posted candidate. -/
def isPosted : Outcome → Bool
  | .posted => true
  | _ => false

/-- The candidate filter of `main` (`main.py` line 501): candidates whose
id is already in the loaded ledger are dropped before any probing. -/
def newIds (video_ids history0 : List String) : List String :=
  video_ids.filter (fun v => !history0.contains v)

/-- The candidate loop of `main` (`main.py` lines 512-541) with the ledger
persistence of `save_history` (`main.py` lines 452-457) made explicit:
state is (stats, in-memory `posted_history`, ledger-file contents).  The
loop breaks once `posted` reaches `maxV`; a posted candidate is added to
the in-memory set and the whole set is then written to the file, the
write succeeding iff `saveOk id` — a failed write is swallowed, leaving
the file as it was (`save_history` catches every exception). -/
def processIdsL (maxV : Nat) (env : String → Outcome) (saveOk : String → Bool) :
    List String → Stats → List String → List String →
    Stats × List String × List String
  | [], s, mem, file => (s, mem, file)
  | id :: rest, s, mem, file =>
    if maxV ≤ s.posted then (s, mem, file)
    else
      match env id with
      | .noInfo =>
        processIdsL maxV env saveOk rest { s with no_info := s.no_info + 1 } mem file
      | .dlFail =>
        processIdsL maxV env saveOk rest { s with dl_fail := s.dl_fail + 1 } mem file
      | .tgFail =>
        processIdsL maxV env saveOk rest { s with tg_fail := s.tg_fail + 1 } mem file
      | .posted =>
        processIdsL maxV env saveOk rest { s with posted := s.posted + 1 }
          (id :: mem) (if saveOk id then id :: mem else file)

/-- The candidate ids on which `main` actually calls `get_video_info`: the
prefix of the loop's worklist processed before the posted-count break,
tracked against the running posted count `p`. -/
def probedIdsLoop (maxV : Nat) (env : String → Outcome) :
    List String → Nat → List String
  | [], _ => []
  | id :: rest, p =>
    if maxV ≤ p then []
    else id :: probedIdsLoop maxV env rest (p + (if isPosted (env id) then 1 else 0))

/-- One full run of `main`'s candidate stage (`main.py` lines 490-541):
load the ledger, filter the candidate pool against it, and run the loop
from zero stats. -/
def runBatch (maxV : Nat) (env : String → Outcome) (saveOk : String → Bool)
    (video_ids history0 : List String) : Stats × List String × List String :=
  processIdsL maxV env saveOk (newIds video_ids history0) ⟨0, 0, 0, 0⟩ history0 history0

/-- The ids a run passes to the metadata prober. -/
def probedIds (maxV : Nat) (env : String → Outcome)
    (video_ids history0 : List String) : List String :=
  probedIdsLoop maxV env (newIds video_ids history0) 0

/-- The observable steps of `main`, in execution order (`main.py` lines
463-541): dependency installation, yt-dlp upgrade, cookie preparation,
search, then per-candidate probe / download / publish / ledger-write. -/
inductive Event
  | installFfmpeg
  | upgradeYtdlp
  | prepareCookies
  | search
  | probe (id : String)
  | download (id : String)
  | publish (id : String)
  | ledgerWrite (id : String)
deriving Repr, DecidableEq

/-- Whether a step issues network requests.  The yt-dlp upgrade runs
`pip install --upgrade` unconditionally (`main.py` lines 96-99), which
contacts the package index; search, probe, download and publish are
network calls by nature; the ffmpeg step may be a purely local version
check when ffmpeg is already installed, so it is conservatively classified
as non-network (the refutation below does not rest on it); the ledger is
a local file. -/
def networkEvent : Event → Bool
  | .upgradeYtdlp => true
  | .search => true
  | .probe _ => true
  | .download _ => true
  | .publish _ => true
  | .installFfmpeg => false
  | .prepareCookies => false
  | .ledgerWrite _ => false

/-- The pipeline steps one candidate contributes, given how far it gets
(`main.py` lines 520-541): probe always; download when the probe yields
metadata; publish when the download yields a file; ledger write when the
publish succeeds. -/
def candidateEvents (env : String → Outcome) (id : String) : List Event :=
  match env id with
  | .noInfo => [.probe id]
  | .dlFail => [.probe id, .download id]
  | .tgFail => [.probe id, .download id, .publish id]
  | .posted => [.probe id, .download id, .publish id, .ledgerWrite id]

/-- The candidate-stage steps of a run, in order. -/
def loopEvents (maxV : Nat) (env : String → Outcome)
    (l : List String) (p : Nat) : List Event :=
  (probedIdsLoop maxV env l p).flatMap (candidateEvents env)

/-- The configuration `main` validates (`main.py` lines 25-28, 478-484). -/
structure Config where
  telegram_bot_token : String
  telegram_channel_id : String
  max_videos : Nat
deriving Repr, DecidableEq

/-- The result of `main`: an error dictionary or the final stats
(`main.py` lines 480, 484, 499, 552). -/
inductive MainResult
  | err (msg : String)
  | ok (s : Stats)
deriving Repr, DecidableEq

/-- The function `main` (`main.py` lines 463-552) as a step trace plus result: ffmpeg
install and yt-dlp upgrade run first, then the two credential checks,
then cookies, history load, search (aborting on an empty pool), then the
candidate loop.  `video_ids` is the search response, `history0` the
ledger-file contents at start. -/
def mainTrace (cfg : Config) (env : String → Outcome) (saveOk : String → Bool)
    (video_ids history0 : List String) : List Event × MainResult :=
  if cfg.telegram_bot_token = "" then
    ([.installFfmpeg, .upgradeYtdlp], .err "Missing TELEGRAM_BOT_TOKEN")
  else if cfg.telegram_channel_id = "" then
    ([.installFfmpeg, .upgradeYtdlp], .err "Missing TELEGRAM_CHANNEL_ID")
  else if video_ids.isEmpty then
    ([.installFfmpeg, .upgradeYtdlp, .prepareCookies, .search], .err "No videos found")
  else
    ([.installFfmpeg, .upgradeYtdlp, .prepareCookies, .search] ++
       loopEvents cfg.max_videos env (newIds video_ids history0) 0,
     .ok (runBatch cfg.max_videos env saveOk video_ids history0).1)

/-! ### Helper lemmas: the metadata prober -/

/-- Strategies whose extraction raises or returns empty metadata are
skipped: the probe over `pre ++ rest` equals the probe over `rest`. -/
theorem runStrategies_append_skips (minDur maxDur : Nat) (vid : String)
    (env : String → ExtractOutcome) (pre rest : List (String × StrategyOpts))
    (h : ∀ p ∈ pre, skips (env p.1) = true) :
    runStrategies minDur maxDur vid env (pre ++ rest)
      = runStrategies minDur maxDur vid env rest := by
  induction pre with
  | nil => rfl
  | cons hd tl ih =>
    have hhd : skips (env hd.1) = true := h hd (List.mem_cons_self hd tl)
    have htl : ∀ p ∈ tl, skips (env p.1) = true :=
      fun p hp => h p (List.mem_cons_of_mem hd hp)
    obtain ⟨name, opts⟩ := hd
    cases henv : env name with
    | error e => simpa [runStrategies, henv] using ih htl
    | ok o =>
      cases o with
      | none => simpa [runStrategies, henv] using ih htl
      | some info => simp [skips, henv] at hhd

/-- A catalog in which every strategy raises or returns empty metadata
yields no metadata. -/
theorem runStrategies_skips_all (minDur maxDur : Nat) (vid : String)
    (env : String → ExtractOutcome) (ss : List (String × StrategyOpts))
    (h : ∀ p ∈ ss, skips (env p.1) = true) :
    runStrategies minDur maxDur vid env ss = none := by
  have := runStrategies_append_skips minDur maxDur vid env ss [] h
  simpa using this

/-- If the head strategy returns metadata with an out-of-range duration,
the probe answers `none` at once, whatever strategies follow. -/
theorem runStrategies_cons_out_of_range (minDur maxDur : Nat) (vid : String)
    (env : String → ExtractOutcome) (name : String) (opts : StrategyOpts)
    (rest : List (String × StrategyOpts)) (info : RawInfo)
    (henv : env name = .ok (some info))
    (hdur : info.duration.getD 0 < minDur ∨ maxDur < info.duration.getD 0) :
    runStrategies minDur maxDur vid env ((name, opts) :: rest) = none := by
  simp [runStrategies, henv, hdur]

/-- Decomposition of a successful probe: the catalog splits at the
recorded strategy, every earlier strategy was skipped (raised or returned
empty metadata), the recorded strategy returned metadata with an in-range
duration, and the result is the record built from that metadata. -/
theorem runStrategies_some (minDur maxDur : Nat) (vid : String)
    (env : String → ExtractOutcome) :
    ∀ ss r, runStrategies minDur maxDur vid env ss = some r →
      ∃ pre opts post,
        ss = pre ++ (r.successful_strategy, opts) :: post
        ∧ (∀ p ∈ pre, skips (env p.1) = true)
        ∧ ∃ info, env r.successful_strategy = .ok (some info)
            ∧ ¬(info.duration.getD 0 < minDur ∨ maxDur < info.duration.getD 0)
            ∧ r = mkVideoInfo vid r.successful_strategy info := by
  intro ss
  induction ss with
  | nil => intro r hr; simp [runStrategies] at hr
  | cons hd tl ih =>
    intro r hr
    obtain ⟨name, opts⟩ := hd
    cases henv : env name with
    | error e =>
      rw [runStrategies, henv] at hr
      obtain ⟨pre, opts', post, hsplit, hpre, hinfo⟩ := ih r hr
      exact ⟨(name, opts) :: pre, opts', post, by simp [hsplit],
        fun p hp => by
          rcases List.mem_cons.mp hp with h | h
          · subst h; simp [skips, henv]
          · exact hpre p h,
        hinfo⟩
    | ok o =>
      cases o with
      | none =>
        rw [runStrategies, henv] at hr
        obtain ⟨pre, opts', post, hsplit, hpre, hinfo⟩ := ih r hr
        exact ⟨(name, opts) :: pre, opts', post, by simp [hsplit],
          fun p hp => by
            rcases List.mem_cons.mp hp with h | h
            · subst h; simp [skips, henv]
            · exact hpre p h,
          hinfo⟩
      | some info =>
        rw [runStrategies, henv] at hr
        by_cases hdur : info.duration.getD 0 < minDur ∨ maxDur < info.duration.getD 0
        · simp [hdur] at hr
        · simp only [hdur, if_false] at hr
          have hr' : r = mkVideoInfo vid name info := by
            simpa using hr.symm
          have hname : r.successful_strategy = name := by
            rw [hr']; rfl
          refine ⟨[], opts, tl, ?_, by simp, info, ?_, hdur, ?_⟩
          · simp [hname]
          · rw [hname]; exact henv
          · rw [hname]; exact hr'

/-! ### Helper lemmas: the orchestration loop -/

/-- Stats and in-memory history of the candidate loop do not depend on
ledger-write outcomes or on the ledger file's running contents. -/
theorem processIdsL_indep (maxV : Nat) (env : String → Outcome) :
    ∀ (l : List String) (saveOk saveOk' : String → Bool) (s : Stats)
      (mem file file' : List String),
      (processIdsL maxV env saveOk l s mem file).1
          = (processIdsL maxV env saveOk' l s mem file').1
        ∧ (processIdsL maxV env saveOk l s mem file).2.1
          = (processIdsL maxV env saveOk' l s mem file').2.1 := by
  intro l
  induction l with
  | nil => intro saveOk saveOk' s mem file file'; simp [processIdsL]
  | cons id rest ih =>
    intro saveOk saveOk' s mem file file'
    by_cases hbreak : maxV ≤ s.posted
    · simp [processIdsL, hbreak]
    · cases henv : env id <;>
        simpa [processIdsL, hbreak, henv] using ih saveOk saveOk' _ _ _ _

/-- The in-memory history only grows during the loop. -/
theorem processIdsL_mem_mono (maxV : Nat) (env : String → Outcome)
    (saveOk : String → Bool) :
    ∀ (l : List String) (s : Stats) (mem file : List String) (x : String),
      x ∈ mem → x ∈ (processIdsL maxV env saveOk l s mem file).2.1 := by
  intro l
  induction l with
  | nil => intro s mem file x hx; simpa [processIdsL] using hx
  | cons id rest ih =>
    intro s mem file x hx
    by_cases hbreak : maxV ≤ s.posted
    · simpa [processIdsL, hbreak] using hx
    · cases henv : env id <;> simp only [processIdsL, hbreak, if_false, henv]
      · exact ih _ _ _ x hx
      · exact ih _ _ _ x hx
      · exact ih _ _ _ x hx
      · exact ih _ _ _ x (List.mem_cons_of_mem id hx)

/-- Every processed candidate that reaches the publish step successfully
ends up in the in-memory history. -/
theorem processIdsL_posted_mem (maxV : Nat) (env : String → Outcome)
    (saveOk : String → Bool) :
    ∀ (l : List String) (s : Stats) (mem file : List String) (x : String),
      x ∈ probedIdsLoop maxV env l s.posted → isPosted (env x) = true →
      x ∈ (processIdsL maxV env saveOk l s mem file).2.1 := by
  intro l
  induction l with
  | nil => intro s mem file x hx; simp [probedIdsLoop] at hx
  | cons id rest ih =>
    intro s mem file x hx hpost
    by_cases hbreak : maxV ≤ s.posted
    · simp [probedIdsLoop, hbreak] at hx
    · rw [probedIdsLoop, if_neg hbreak] at hx
      rcases List.mem_cons.mp hx with heq | hmem
      · subst heq
        cases henv : env x with
        | posted =>
          simp only [processIdsL, if_neg hbreak, henv]
          exact processIdsL_mem_mono maxV env saveOk rest _ _ _ x
            (List.mem_cons_self x mem)
        | noInfo => rw [henv] at hpost; simp [isPosted] at hpost
        | dlFail => rw [henv] at hpost; simp [isPosted] at hpost
        | tgFail => rw [henv] at hpost; simp [isPosted] at hpost
      · cases henv : env id <;> rw [processIdsL, if_neg hbreak] <;>
          simp only [henv] <;>
          refine ih _ _ _ x ?_ hpost <;>
          simpa [henv, isPosted] using hmem

/-- Final posted count: the initial count plus the number of processed
candidates whose pipeline reached a successful publish. -/
theorem processIdsL_posted_count (maxV : Nat) (env : String → Outcome)
    (saveOk : String → Bool) :
    ∀ (l : List String) (s : Stats) (mem file : List String),
      (processIdsL maxV env saveOk l s mem file).1.posted
        = s.posted
          + (probedIdsLoop maxV env l s.posted).countP (fun i => isPosted (env i)) := by
  intro l
  induction l with
  | nil => intro s mem file; simp [processIdsL, probedIdsLoop]
  | cons id rest ih =>
    intro s mem file
    by_cases hbreak : maxV ≤ s.posted
    · simp [processIdsL, probedIdsLoop, hbreak]
    · cases henv : env id
      all_goals rw [processIdsL, if_neg hbreak, probedIdsLoop, if_neg hbreak]
      all_goals simp only [henv]
      all_goals rw [List.countP_cons]
      all_goals simp [isPosted, henv, ih]
      all_goals omega

/-- A worklist none of whose candidates can be published leaves the posted
counter unchanged. -/
theorem processIdsL_no_posted (maxV : Nat) (env : String → Outcome)
    (saveOk : String → Bool) :
    ∀ (l : List String) (s : Stats) (mem file : List String),
      (∀ x ∈ l, isPosted (env x) = false) →
      (processIdsL maxV env saveOk l s mem file).1.posted = s.posted := by
  intro l
  induction l with
  | nil => intro s mem file _; simp [processIdsL]
  | cons id rest ih =>
    intro s mem file h
    by_cases hbreak : maxV ≤ s.posted
    · simp [processIdsL, hbreak]
    · have hid : isPosted (env id) = false := h id (List.mem_cons_self id rest)
      have hrest : ∀ x ∈ rest, isPosted (env x) = false :=
        fun x hx => h x (List.mem_cons_of_mem id hx)
      cases henv : env id <;> rw [processIdsL, if_neg hbreak] <;> simp only [henv]
      · exact ih _ _ _ hrest
      · exact ih _ _ _ hrest
      · exact ih _ _ _ hrest
      · rw [henv] at hid; simp [isPosted] at hid

/-- Only worklist candidates are probed. -/
theorem probedIdsLoop_subset (maxV : Nat) (env : String → Outcome) :
    ∀ (l : List String) (p : Nat) (x : String),
      x ∈ probedIdsLoop maxV env l p → x ∈ l := by
  intro l
  induction l with
  | nil => intro p x hx; simp [probedIdsLoop] at hx
  | cons id rest ih =>
    intro p x hx
    by_cases hbreak : maxV ≤ p
    · simp [probedIdsLoop, hbreak] at hx
    · rw [probedIdsLoop, if_neg hbreak] at hx
      rcases List.mem_cons.mp hx with heq | hmem
      · exact heq ▸ List.mem_cons_self id rest
      · exact List.mem_cons_of_mem id (ih _ x hmem)

/-! ### Helper lemmas: search boundary, caption, download scan -/

/-- A `filterMap` by a more selective extractor yields a sublist of the
`filterMap` by a less selective one. -/
theorem filterMap_sublist_of_imp {α β : Type} (g f : α → Option β)
    (hgf : ∀ x y, g x = some y → f x = some y) :
    ∀ l : List α, (l.filterMap g).Sublist (l.filterMap f) := by
  intro l
  induction l with
  | nil => simp
  | cons hd tl ih =>
    rw [List.filterMap_cons, List.filterMap_cons]
    cases hg : g hd with
    | none =>
      cases hf : f hd with
      | none => exact ih
      | some y => exact ih.trans (List.sublist_cons_self y _)
    | some y => rw [hgf hd y hg]; exact ih.cons₂ y

/-- The caption's length decomposes into the lengths of the three
unbounded inputs (title, uploader, URL) plus a part independent of them:
no part of the caption is ever truncated. -/
theorem buildCaption_length (t u url : String) (d v : Nat) :
    (buildCaption t u d v url).length
      = t.length + u.length + url.length + (buildCaption "" "" d v "").length := by
  simp only [buildCaption, String.length_append, String.length_empty]
  try omega

/-- The post-download scan is blind to file sizes: rewriting every size
commutes with the scan. -/
theorem findDownloaded_setSize (g : String → Nat) (files : List FoundFile) :
    findDownloaded (files.map (setSize g))
      = (findDownloaded files).map (setSize g) := by
  unfold findDownloaded
  have hfind : ∀ e : String,
      (files.map (setSize g)).find? (fun f => f.ext == e)
        = (files.find? (fun f => f.ext == e)).map (setSize g) := by
    intro e
    rw [List.find?_map]
    rfl
  have : (["mp4", "mkv", "webm", "m4v"].filterMap
        (fun e => (files.map (setSize g)).find? (fun f => f.ext == e)))
      = (["mp4", "mkv", "webm", "m4v"].filterMap
          (fun e => files.find? (fun f => f.ext == e))).map (setSize g) := by
    rw [List.map_filterMap]
    apply List.filterMap_congr
    intro e _
    rw [hfind e]
  rw [this, List.head?_map]

/-- Whatever file the scan returns was present in the directory and bears
one of the four recognized extensions. -/
theorem findDownloaded_mem (files : List FoundFile) (f : FoundFile)
    (h : findDownloaded files = some f) :
    f ∈ files ∧ (["mp4", "mkv", "webm", "m4v"].contains f.ext = true) := by
  unfold findDownloaded at h
  have hmem : f ∈ (["mp4", "mkv", "webm", "m4v"].filterMap
      (fun e => files.find? (fun x => x.ext == e))) := by
    cases hfm : (["mp4", "mkv", "webm", "m4v"].filterMap
        (fun e => files.find? (fun x => x.ext == e))) with
    | nil => rw [hfm] at h; simp at h
    | cons a l =>
      rw [hfm] at h
      have haf : a = f := by simpa using h
      rw [← haf]
      exact List.mem_cons_self a l
  obtain ⟨e, he, hfind⟩ := List.mem_filterMap.mp hmem
  constructor
  · exact List.mem_of_find?_eq_some hfind
  · have hext := List.find?_some hfind
    have hfe : f.ext = e := by simpa using hext
    subst hfe
    simpa using he

/-! ### Claim C1: self-containment of the requested variant -/

/-- C1, counterexample: the claim that the acquisition step only ever
requests a self-contained variant and never a composite one is false —
the format selector handed to the downloader (the exact string of
`main.py` lines 334-340) lists as its FIRST preference an alternative
that merges a video-only stream with an audio-only stream, i.e. a
composite variant. -/
theorem C1_counterexample :
    format_selector
      = "bestvideo[ext=mp4][height<=720][filesize<45M]+bestaudio[ext=m4a]/best[ext=mp4][height<=720][filesize<45M]/best[height<=480]/best"
    ∧ format_alternatives.head?
        = some "bestvideo[ext=mp4][height<=720][filesize<45M]+bestaudio[ext=m4a]"
    ∧ requestsComposite
        "bestvideo[ext=mp4][height<=720][filesize<45M]+bestaudio[ext=m4a]" = true
    ∧ (dl_ydl_opts "android_cookie" true "/tmp/dl").format = format_selector := by
  exact ⟨by decide, by decide, by decide, by decide⟩

/-- C1, amended: the acquisition's first format preference is a composite
variant (separate video and audio streams), combined by an external merge
step the options themselves configure (mp4 merge format plus an ffmpeg
convertor post-processor); only the fallback alternatives after the first
are single, self-contained variants. -/
theorem C1_amended :
    requestsComposite format_alternatives.headI = true
    ∧ (format_alternatives.tail.all (fun a => !requestsComposite a)) = true
    ∧ ∀ (name : String) (c : Bool) (dir : String),
        (dl_ydl_opts name c dir).format = format_selector
        ∧ (dl_ydl_opts name c dir).merge_output_format = "mp4"
        ∧ (dl_ydl_opts name c dir).postprocessors = [("FFmpegVideoConvertor", "mp4")] := by
  refine ⟨by decide, by decide, ?_⟩
  intro name c dir
  cases h : (strategy_extra c).lookup name <;> simp [dl_ydl_opts, h]

/-! ### Claim C2: size verification of the downloaded file -/

/-- C2, counterexample: the claim that the download step rejects
zero-size, implausibly small, or over-ceiling files is false — the
post-transfer scan returns the first file with a recognized extension
whatever its size, here a zero-byte file and a 99 MiB file (well over
the 45M cap of the format selector's first alternatives). -/
theorem C2_counterexample :
    download_video_result (.ok ()) [⟨"v.mp4", "mp4", 0⟩] = some ⟨"v.mp4", "mp4", 0⟩
    ∧ download_video_result (.ok ()) [⟨"v.mp4", "mp4", 99 * 1024 * 1024⟩]
        = some ⟨"v.mp4", "mp4", 99 * 1024 * 1024⟩ := by
  exact ⟨by decide, by decide⟩

/-- C2, amended: the path returned by the download step is the first file
found with a recognized media extension, and the result is entirely blind
to file sizes — no zero-size, minimum-threshold or byte-ceiling check is
performed, so a violating file is returned as success rather than turned
into a failure. -/
theorem C2_amended (o : Except String Unit) (files : List FoundFile) :
    (∀ g : String → Nat,
        download_video_result o (files.map (setSize g))
          = (download_video_result o files).map (setSize g))
    ∧ ∀ f : FoundFile, download_video_result o files = some f →
        f ∈ files ∧ (["mp4", "mkv", "webm", "m4v"].contains f.ext = true) := by
  constructor
  · intro g
    cases o with
    | error e => rfl
    | ok u => exact findDownloaded_setSize g files
  · intro f h
    cases o with
    | error e => simp [download_video_result] at h
    | ok u => exact findDownloaded_mem files f h

/-- Fixture for the C2 witness: a small mp4 file in the directory. -/
def fileA : FoundFile := ⟨"vid.mp4", "mp4", 7⟩

/-- C2, witness: the amended statement applied to a concrete directory
listing. -/
theorem C2_witness :
    fileA ∈ [fileA] ∧ (["mp4", "mkv", "webm", "m4v"].contains fileA.ext = true) :=
  (C2_amended (.ok ()) [fileA]).2 fileA (by decide)

/-! ### Claim C3: exact variant identifier versus format expression -/

/-- C3, counterexample: the claim that the transfer is invoked with the
exact variant identifier chosen by a selector is false — the `format`
option handed to the downloader is a selection expression with fallback
alternation, merge and condition filters, which the downloader re-resolves
at download time. -/
theorem C3_counterexample :
    isExactVariantId ((dl_ydl_opts "web_cookie" true "/tmp/dl").format) = false
    ∧ (((dl_ydl_opts "web_cookie" true "/tmp/dl").format).data.contains '/') = true := by
  exact ⟨by decide, by decide⟩

/-- C3, amended: whatever strategy was recorded by the probe, the transfer
is invoked with the one fixed format-selection expression — containing
fallback alternation and a stream merge, hence not an exact variant
identifier — and no selector-chosen variant id exists anywhere in the
pipeline to be passed. -/
theorem C3_amended :
    (∀ (name : String) (c : Bool) (dir : String),
        (dl_ydl_opts name c dir).format = format_selector)
    ∧ isExactVariantId format_selector = false
    ∧ (format_selector.data.contains '/') = true
    ∧ (format_selector.data.contains '+') = true := by
  refine ⟨?_, by decide, by decide, by decide⟩
  intro name c dir
  cases h : (strategy_extra c).lookup name <;> simp [dl_ydl_opts, h]

/-! ### Claim C4: probe stop/continue discipline -/

/-- Fixture: an in-range raw metadata response (duration 60 s, inside the
default 30-300 bounds). -/
def rawOk : RawInfo := ⟨some "T", some 60, some "U", some 10, some "D"⟩

/-- Fixture for the C4 counterexample: the first strategy's extraction
returns `None` (no exception raised), the second returns good metadata. -/
def envSkipFirst : String → ExtractOutcome :=
  fun name => if name = "android_cookie" then .ok (some rawOk) else .ok none

/-- C4, counterexample: the claim that ONLY errors raised by a strategy
make the probe continue to the next strategy is false — here the first
strategy `tv_embedded` raises nothing (its extraction returns an empty
`None` response), yet the probe still continues and succeeds with the
second strategy `android_cookie`. -/
theorem C4_counterexample :
    envSkipFirst "tv_embedded" = .ok none
    ∧ get_video_info 30 300 "vid" true envSkipFirst
        = some (mkVideoInfo "vid" "android_cookie" rawOk)
    ∧ (mkVideoInfo "vid" "android_cookie" rawOk).successful_strategy
        = "android_cookie" := by
  exact ⟨rfl, by rfl, rfl⟩

/-- C4, amended: if, after any prefix of strategies each of which raised
or returned empty metadata, a strategy returns metadata with an
out-of-range duration, the probe stops at once and returns no metadata
whatever strategies remain; and a catalog in which every strategy raises
or returns empty metadata is exhausted into a no-metadata failure —
i.e. raised errors AND empty responses (not only raised errors) make the
probe continue. -/
theorem C4_amended (minDur maxDur : Nat) (vid : String)
    (env : String → ExtractOutcome) :
    (∀ (pre post : List (String × StrategyOpts)) (name : String)
        (opts : StrategyOpts) (info : RawInfo),
        (∀ p ∈ pre, skips (env p.1) = true) →
        env name = .ok (some info) →
        (info.duration.getD 0 < minDur ∨ maxDur < info.duration.getD 0) →
        runStrategies minDur maxDur vid env (pre ++ (name, opts) :: post) = none)
    ∧ (∀ ss : List (String × StrategyOpts),
        (∀ p ∈ ss, skips (env p.1) = true) →
        runStrategies minDur maxDur vid env ss = none) := by
  constructor
  · intro pre post name opts info hpre henv hdur
    rw [runStrategies_append_skips minDur maxDur vid env pre _ hpre]
    exact runStrategies_cons_out_of_range minDur maxDur vid env name opts post
      info henv hdur
  · intro ss hss
    exact runStrategies_skips_all minDur maxDur vid env ss hss

/-- Fixture for the C4 witness: every strategy's extraction returns an
empty response. -/
def envAllNone : String → ExtractOutcome := fun _ => .ok none

/-- C4, witness: the amended statement applied to the concrete catalog
with every extraction empty. -/
theorem C4_witness :
    runStrategies 30 300 "w4" envAllNone (probeStrategies true) = none :=
  (C4_amended 30 300 "w4" envAllNone).2 (probeStrategies true) (by decide)

/-! ### Claim C5: recorded strategy and its reuse by the download -/

/-- C5: for a successful probe, the catalog splits at the recorded
strategy: every earlier strategy returned no metadata at all (so the
recorded one is the first that returned non-empty metadata, necessarily
with an in-range duration), the result is built from that strategy's
response, and the download options then constructed for the recorded
strategy carry the same credential choice (cookies) and the same
`player_client` hint as the probe strategy of that name. -/
theorem C5_thm (minDur maxDur : Nat) (vid : String) (c : Bool)
    (env : String → ExtractOutcome) (dir : String) (r : VideoInfo)
    (h : get_video_info minDur maxDur vid c env = some r) :
    ∃ pre opts post,
      probeStrategies c = pre ++ (r.successful_strategy, opts) :: post
      ∧ (∀ p ∈ pre, skips (env p.1) = true)
      ∧ (∃ info, env r.successful_strategy = .ok (some info)
          ∧ ¬(info.duration.getD 0 < minDur ∨ maxDur < info.duration.getD 0)
          ∧ r = mkVideoInfo vid r.successful_strategy info)
      ∧ (dl_ydl_opts r.successful_strategy c dir).usesCookies = opts.usesCookies
      ∧ (dl_ydl_opts r.successful_strategy c dir).player_client
          = some opts.player_client := by
  obtain ⟨pre, opts, post, hsplit, hpre, hinfo⟩ :=
    runStrategies_some minDur maxDur vid env (probeStrategies c) r h
  have hmem : (r.successful_strategy, opts) ∈ probeStrategies c := by
    rw [hsplit]
    exact List.mem_append_right pre (List.mem_cons_self _ post)
  have hcfg : (dl_ydl_opts r.successful_strategy c dir).usesCookies = opts.usesCookies
      ∧ (dl_ydl_opts r.successful_strategy c dir).player_client
          = some opts.player_client := by
    simp only [probeStrategies, List.mem_cons, List.not_mem_nil, or_false,
      Prod.mk.injEq] at hmem
    rcases hmem with ⟨hn, ho⟩ | ⟨hn, ho⟩ | ⟨hn, ho⟩ | ⟨hn, ho⟩ | ⟨hn, ho⟩ <;>
      rw [hn, ho] <;> exact ⟨rfl, rfl⟩
  exact ⟨pre, opts, post, hsplit, hpre, hinfo, hcfg.1, hcfg.2⟩

/-- Fixture: the raw metadata the C5 witness's working strategy returns. -/
def rawC5 : RawInfo := ⟨some "W", some 120, some "U5", some 7, some "D5"⟩

/-- Fixture for the C5 witness: the first three strategies raise
(rate-limited), the fourth returns in-range metadata. -/
def envC5 : String → ExtractOutcome :=
  fun name => if name = "web_cookie" then .ok (some rawC5) else .error "HTTP Error 429"

/-- C5, witness: the statement applied to a concrete probe in which
`web_cookie` is the working strategy. -/
theorem C5_witness :
    ∃ pre opts post,
      probeStrategies true
        = pre ++ ((mkVideoInfo "v5" "web_cookie" rawC5).successful_strategy, opts) :: post
      ∧ (∀ p ∈ pre, skips (envC5 p.1) = true)
      ∧ (∃ info, envC5 (mkVideoInfo "v5" "web_cookie" rawC5).successful_strategy
            = .ok (some info)
          ∧ ¬(info.duration.getD 0 < 30 ∨ 300 < info.duration.getD 0)
          ∧ mkVideoInfo "v5" "web_cookie" rawC5
              = mkVideoInfo "v5" (mkVideoInfo "v5" "web_cookie" rawC5).successful_strategy info)
      ∧ (dl_ydl_opts (mkVideoInfo "v5" "web_cookie" rawC5).successful_strategy true "/tmp/d5").usesCookies
          = opts.usesCookies
      ∧ (dl_ydl_opts (mkVideoInfo "v5" "web_cookie" rawC5).successful_strategy true "/tmp/d5").player_client
          = some opts.player_client :=
  C5_thm 30 300 "v5" true envC5 "/tmp/d5" (mkVideoInfo "v5" "web_cookie" rawC5) (by rfl)

/-! ### Claim C6: duplicate exclusion and run-twice idempotence -/

/-- Fixture: a world in which every candidate sails through the whole
pipeline. -/
def envAllPost : String → Outcome := fun _ => .posted

/-- C6, counterexample: the run-twice-posts-zero half of the claim is
false — with a pool of two postable candidates and a posting target of 1,
the first run stops at the target after posting the first candidate, and
the second run (same pool, ledger carried over from the first run) posts
the second candidate: 1 new item, not 0. -/
theorem C6_counterexample :
    ¬ ((runBatch 1 envAllPost (fun _ => true) ["a", "b"]
        ((runBatch 1 envAllPost (fun _ => true) ["a", "b"] []).2.1)).1.posted = 0)
    ∧ (runBatch 1 envAllPost (fun _ => true) ["a", "b"]
        ((runBatch 1 envAllPost (fun _ => true) ["a", "b"] []).2.1)).1.posted = 1 := by
  exact ⟨by decide, by decide⟩

/-- C6, amended: no id present in the ledger at the start of a run is
ever passed to the metadata probe; and rerunning the batch on an
unchanged pool with the ledger carried over posts zero new items PROVIDED
the first run processed every new candidate (did not stop early at the
post-count target) — without that proviso the second run posts the
candidates the first run never reached. -/
theorem C6_thm (maxV : Nat) (env : String → Outcome)
    (video_ids history0 : List String) :
    (∀ id ∈ history0, id ∉ probedIds maxV env video_ids history0)
    ∧ (probedIds maxV env video_ids history0 = newIds video_ids history0 →
        (runBatch maxV env (fun _ => true) video_ids
          ((runBatch maxV env (fun _ => true) video_ids history0).2.1)).1.posted = 0) := by
  constructor
  · intro id hid hprobed
    have hnew : id ∈ newIds video_ids history0 :=
      probedIdsLoop_subset maxV env (newIds video_ids history0) 0 id hprobed
    have := (List.mem_filter.mp hnew).2
    simp at this
    exact this hid
  · intro hall
    unfold runBatch
    rw [processIdsL_no_posted]
    intro x hx
    have hx1 := List.mem_filter.mp hx
    have hxnh1 : x ∉ (runBatch maxV env (fun _ => true) video_ids history0).2.1 := by
      have := hx1.2
      simpa using this
    cases hb : isPosted (env x) with
    | false => rfl
    | true =>
      exfalso
      have hxnh0 : x ∉ history0 := fun hmem =>
        hxnh1 (processIdsL_mem_mono maxV env (fun _ => true)
          (newIds video_ids history0) ⟨0, 0, 0, 0⟩ history0 history0 x hmem)
      have hxnew : x ∈ newIds video_ids history0 :=
        List.mem_filter.mpr ⟨hx1.1, by simpa using hxnh0⟩
      have hxprobed : x ∈ probedIdsLoop maxV env (newIds video_ids history0) 0 := by
        have : x ∈ probedIds maxV env video_ids history0 := by
          rw [hall]; exact hxnew
        exact this
      exact hxnh1 (processIdsL_posted_mem maxV env (fun _ => true)
        (newIds video_ids history0) ⟨0, 0, 0, 0⟩ history0 history0 x hxprobed hb)

/-- Fixture for the C6 witness: only candidate `x` exists beyond the
ledgered `h`, and its probe fails. -/
def envC6 : String → Outcome := fun id => if id = "x" then .noInfo else .posted

/-- C6, witness: the statement applied to a concrete pool where the first
run exhausts its candidates. -/
theorem C6_witness :
    ("h" ∉ probedIds 5 envC6 ["h", "x"] ["h"])
    ∧ (runBatch 5 envC6 (fun _ => true) ["h", "x"]
        ((runBatch 5 envC6 (fun _ => true) ["h", "x"] ["h"]).2.1)).1.posted = 0 :=
  ⟨(C6_thm 5 envC6 ["h", "x"] ["h"]).1 "h" (by decide),
   (C6_thm 5 envC6 ["h", "x"] ["h"]).2 (by decide)⟩

/-! ### Claim C7: credential check versus network activity -/

/-- C7, counterexample: the claim that no network request of any kind
precedes the publish-sink credential check is false — with the bot token
absent, the run still aborts with the fatal configuration error, but the
unconditional yt-dlp pip upgrade (a network request) has already run, as
its event in the trace shows. -/
theorem C7_counterexample :
    (mainTrace ⟨"", "@chan", 5⟩ envAllPost (fun _ => true) ["vidA"] []).2
        = .err "Missing TELEGRAM_BOT_TOKEN"
    ∧ Event.upgradeYtdlp
        ∈ (mainTrace ⟨"", "@chan", 5⟩ envAllPost (fun _ => true) ["vidA"] []).1
    ∧ networkEvent .upgradeYtdlp = true := by
  exact ⟨by decide, by decide, by decide⟩

/-- C7, amended: with the publish-sink credential absent the run aborts
with the fatal configuration error before any content-pipeline activity —
the trace holds exactly the ffmpeg-install and yt-dlp-upgrade steps, so
no search, probe, download or publish ever happens — but after those two
dependency steps, of which the pip upgrade does issue network requests. -/
theorem C7_amended (cfg : Config) (env : String → Outcome)
    (saveOk : String → Bool) (video_ids history0 : List String)
    (h : cfg.telegram_bot_token = "") :
    (mainTrace cfg env saveOk video_ids history0).1
        = [.installFfmpeg, .upgradeYtdlp]
    ∧ (mainTrace cfg env saveOk video_ids history0).2
        = .err "Missing TELEGRAM_BOT_TOKEN"
    ∧ ∀ e ∈ (mainTrace cfg env saveOk video_ids history0).1,
        e = .installFfmpeg ∨ e = .upgradeYtdlp := by
  refine ⟨by simp [mainTrace, h], by simp [mainTrace, h], ?_⟩
  intro e he
  rw [mainTrace, if_pos h] at he
  simpa using he

/-- C7, witness: the amended statement applied to a concrete
configuration with an empty bot token. -/
theorem C7_witness :
    (mainTrace ⟨"", "@c", 2⟩ envAllPost (fun _ => true) ["v1", "v2"] []).1
        = [.installFfmpeg, .upgradeYtdlp]
    ∧ (mainTrace ⟨"", "@c", 2⟩ envAllPost (fun _ => true) ["v1", "v2"] []).2
        = .err "Missing TELEGRAM_BOT_TOKEN" :=
  ⟨(C7_amended ⟨"", "@c", 2⟩ envAllPost (fun _ => true) ["v1", "v2"] [] rfl).1,
   (C7_amended ⟨"", "@c", 2⟩ envAllPost (fun _ => true) ["v1", "v2"] [] rfl).2.1⟩

/-! ### Claim C8: ledger-write failures after a successful publish -/

/-- C8: ledger-write outcomes are invisible to the run — the final stats
and the in-memory posted set are identical whatever subset of writes
fails (so a failed write is swallowed and the publish is neither undone
nor retried); the posted counter counts exactly the processed candidates
whose publish succeeded; and every such candidate is in the in-memory
posted set even when its ledger write failed. -/
theorem C8_thm (maxV : Nat) (env : String → Outcome)
    (saveOk saveOk' : String → Bool) (ids : List String) (s : Stats)
    (mem file file' : List String) :
    ((processIdsL maxV env saveOk ids s mem file).1
        = (processIdsL maxV env saveOk' ids s mem file').1
      ∧ (processIdsL maxV env saveOk ids s mem file).2.1
        = (processIdsL maxV env saveOk' ids s mem file').2.1)
    ∧ (processIdsL maxV env saveOk ids s mem file).1.posted
        = s.posted
          + (probedIdsLoop maxV env ids s.posted).countP (fun i => isPosted (env i))
    ∧ ∀ id, id ∈ probedIdsLoop maxV env ids s.posted → isPosted (env id) = true →
        id ∈ (processIdsL maxV env saveOk ids s mem file).2.1 :=
  ⟨processIdsL_indep maxV env ids saveOk saveOk' s mem file file',
   processIdsL_posted_count maxV env saveOk ids s mem file,
   fun id h1 h2 =>
     processIdsL_posted_mem maxV env saveOk ids s mem file id h1 h2⟩

/-- C8, witness: the statement applied to a run whose every ledger write
fails; the posted candidate is still counted in the in-memory set. -/
theorem C8_witness :
    "e" ∈ (processIdsL 5 envAllPost (fun _ => false) ["e"] ⟨0, 0, 0, 0⟩ [] ["old"]).2.1 :=
  (C8_thm 5 envAllPost (fun _ => false) (fun _ => true) ["e"] ⟨0, 0, 0, 0⟩
      [] ["old"] ["old"]).2.2 "e" (by decide) (by decide)

/-! ### Claim C9: caption truncation before publishing -/

/-- Fixture: a 1100-character title, comfortably beyond the sink's
documented 1024-character caption limit. -/
def longTitle : String := String.mk (List.replicate 1100 'a')

/-- C9, counterexample: the claim that the caption handed to the publish
sink is truncated to the sink's documented maximum length is false — the
caption built for a candidate with a 1100-character title exceeds the
1024-character limit, since no truncation is applied anywhere. -/
theorem C9_counterexample :
    TELEGRAM_CAPTION_LIMIT
      < (buildCaption longTitle "Uploader" 45 1000
          "https://www.youtube.com/watch?v=dQw4w9WgXcQ").length := by
  have h := buildCaption_length longTitle "Uploader"
    "https://www.youtube.com/watch?v=dQw4w9WgXcQ" 45 1000
  have hlen : longTitle.length = 1100 := by
    show (String.mk (List.replicate 1100 'a')).length = 1100
    rw [String.length_mk, List.length_replicate]
  have hlim : TELEGRAM_CAPTION_LIMIT = 1024 := rfl
  rw [h, hlen, hlim]
  omega

/-- C9, amended: the caption is sent with no truncation at all — its
length is the sum of the title, uploader and URL lengths plus a part
independent of them, and in particular it grows beyond every bound as the
title grows, so it can exceed the sink's documented limit (the sink then
rejects the send, surfacing as a publish failure). -/
theorem C9_amended :
    (∀ (t u url : String) (d v : Nat),
        (buildCaption t u d v url).length
          = t.length + u.length + url.length + (buildCaption "" "" d v "").length)
    ∧ ∀ (u url : String) (d v n : Nat),
        n ≤ (buildCaption (String.mk (List.replicate n 'a')) u d v url).length := by
  refine ⟨fun t u url d v => buildCaption_length t u url d v, ?_⟩
  intro u url d v n
  rw [buildCaption_length, String.length_mk, List.length_replicate]
  omega

/-! ### Claim C10: totality and shape of the search boundary -/

/-- C10: the search boundary returns `[]` on any raised extraction error;
every returned id is non-empty; the returned ids are a subsequence of the
ids the provider's entries carry, in provider order; the request itself
caps the provider's entry count at `max_results` (both in the
`playlistend` option and in the `ytsearchN` expression); and whenever the
provider honors that cap, at most `max_results` ids are returned. -/
theorem C10_thm (resp : Except String (Option SearchInfo)) (query : String)
    (c : Bool) (max_results : Nat) :
    (∀ emsg : String, search_youtube (.error emsg) = [])
    ∧ (∀ x ∈ search_youtube resp, x ≠ "")
    ∧ (search_youtube resp).Sublist (allEntryIds resp)
    ∧ (search_ydl_opts c max_results).playlistend = max_results
    ∧ search_url query max_results = "ytsearch" ++ toString max_results ++ ":" ++ query
    ∧ (entryCount resp ≤ max_results → (search_youtube resp).length ≤ max_results) := by
  refine ⟨fun emsg => rfl, ?_, ?_, rfl, rfl, ?_⟩
  · intro x hx
    match resp with
    | .error e => simp [search_youtube] at hx
    | .ok none => simp [search_youtube] at hx
    | .ok (some info) =>
      match hes : info.entries with
      | none => simp [search_youtube, hes] at hx
      | some es =>
        rw [search_youtube, hes] at hx
        obtain ⟨e, _, hid⟩ := List.mem_filterMap.mp hx
        match e with
        | none => simp [entryId] at hid
        | some en =>
          match hi : en.id with
          | none => simp [entryId, hi] at hid
          | some i =>
            rw [entryId, hi] at hid
            by_cases hie : i = ""
            · simp [hie] at hid
            · simp [hie] at hid
              rw [← hid]
              exact hie
  · match resp with
    | .error e => exact List.nil_sublist _
    | .ok none => exact List.nil_sublist _
    | .ok (some info) =>
      match hes : info.entries with
      | none => simp [search_youtube, allEntryIds, hes]
      | some es =>
        rw [search_youtube, allEntryIds, hes]
        apply filterMap_sublist_of_imp
        intro e y hey
        match e with
        | none => simp [entryId] at hey
        | some en =>
          match hi : en.id with
          | none => simp [entryId, hi] at hey
          | some i =>
            rw [entryId, hi] at hey
            by_cases hie : i = ""
            · simp [hie] at hey
            · simp [hie] at hey
              simp [Option.bind, hi, hey]
  · intro hcount
    match resp with
    | .error e => simp [search_youtube]
    | .ok none => simp [search_youtube]
    | .ok (some info) =>
      match hes : info.entries with
      | none => simp [search_youtube, hes]
      | some es =>
        rw [search_youtube, hes]
        rw [entryCount, hes] at hcount
        exact le_trans (List.length_filterMap_le entryId es) hcount

/-- Fixture for the C10 witness: a provider response with one good entry,
one `None` entry, one empty-id entry and one id-less entry. -/
def respW : Except String (Option SearchInfo) :=
  .ok (some ⟨some [some ⟨some "abc"⟩, none, some ⟨some ""⟩, some ⟨none⟩]⟩)

/-- C10, witness: the statement applied to the concrete provider
response. -/
theorem C10_witness :
    "abc" ≠ "" ∧ (search_youtube respW).length ≤ 30 :=
  ⟨(C10_thm respW "AI news today" true 30).2.1 "abc" (by decide),
   (C10_thm respW "AI news today" true 30).2.2.2.2.2 (by decide)⟩

end YoutubeNews
